import Mathlib

/-!
Shallow embedding of the session sandbox manager in
`livebench/tools/productivity/code_execution_sandbox.py`.

Python strings are modelled as Lean `String` / `List Char`, byte strings as
`List Nat` (each entry one byte value), Python exceptions as an explicit
`PyExc` error type carried in `Except`, and the three execution backends
(E2B cloud sandbox, Beta9 serverless endpoint, Docker container) as an
inductive `Backend` together with per-backend file operations that follow
the corresponding Python methods line by line.  Subprocess and network
outcomes that the Python code observes are supplied as explicit boolean
oracles in environment records.
-/

namespace ClawWork

/-- Python regex whitespace class `\s` restricted to the ASCII characters
the interpreter recognises: space, tab, newline, carriage return,
vertical tab, form feed. -/
def isPySpace (c : Char) : Bool :=
  c = ' ' || c = '\t' || c = '\n' || c = '\r' || c.toNat = 11 || c.toNat = 12

/-- The literal marker scanned for in stdout, from
`re.findall(r'ARTIFACT_PATH:(\S+)', stdout_str)`. -/
def artifactMarker : List Char := "ARTIFACT_PATH:".toList

/-- Python substring containment `pat in text` (`"ARTIFACT_PATH:" in stdout_str`). -/
def hasSubseq (pat : List Char) : List Char → Bool
  | [] => pat.isEmpty
  | c :: rest => pat.isPrefixOf (c :: rest) || hasSubseq pat rest

/-- `re.findall(r'ARTIFACT_PATH:(\S+)', ·)`: left-to-right scan; at each
position where the literal marker matches and is immediately followed by at
least one non-whitespace character, the maximal non-whitespace run is
captured and scanning resumes after it (non-overlapping matches); otherwise
the scan advances one character. -/
def scanAux : List Char → List (List Char)
  | [] => []
  | c :: rest =>
    if artifactMarker.isPrefixOf (c :: rest) then
      let tok := ((c :: rest).drop artifactMarker.length).takeWhile (fun ch => !isPySpace ch)
      if tok.isEmpty then
        scanAux rest
      else
        tok :: scanAux (((c :: rest).drop artifactMarker.length).drop tok.length)
    else
      scanAux rest
termination_by l => l.length
decreasing_by
  · simp
  · simp [List.length_drop, artifactMarker]
    omega
  · simp

/-- The artifact-path extraction performed by `execute_code` on stdout. -/
def findallArtifactPaths (s : String) : List String :=
  (scanAux s.toList).map (fun t => String.mk t)

/-- Rendering of claim C1's words, for comparison with the code's scan:
"the substrings following each literal occurrence of `ARTIFACT_PATH:` up to
the next whitespace, in first-occurrence order with duplicates preserved" —
one token per literal occurrence of the marker in the text, each token the
maximal whitespace-free run following that occurrence. -/
def claimedArtifactScan (s : String) : List String :=
  let l := s.toList
  (List.range l.length).filterMap (fun i =>
    if artifactMarker.isPrefixOf (l.drop i) then
      some (String.mk (((l.drop i).drop artifactMarker.length).takeWhile (fun ch => !isPySpace ch)))
    else none)

/-! ## Python values, exceptions and file stores -/

/-- The Python exception kinds distinguished by the embedded code. -/
inductive PyExc
  | fileNotFound (msg : String)
  | attributeError (msg : String)
  | calledProcessError (msg : String)
  | runtimeError (msg : String)
  | otherExc (msg : String)
deriving DecidableEq, Repr

/-- `str(e)` for an exception value. -/
def pyExcMsg : PyExc → String
  | .fileNotFound m => m
  | .attributeError m => m
  | .calledProcessError m => m
  | .runtimeError m => m
  | .otherExc m => m

/-- A Python value that is either a `str` or a `bytes` object. -/
inductive PyData
  | str (s : String)
  | bytes (b : List Nat)
deriving DecidableEq, Repr

/-- UTF-8 encoding of one code point, one byte value per list entry. -/
def utf8EncodeChar (n : Nat) : List Nat :=
  if n < 128 then [n]
  else if n < 2048 then [192 + n / 64, 128 + n % 64]
  else if n < 65536 then [224 + n / 4096, 128 + (n / 64) % 64, 128 + n % 64]
  else [240 + n / 262144, 128 + (n / 4096) % 64, 128 + (n / 64) % 64, 128 + n % 64]

/-- `s.encode('utf-8')` as a byte list. -/
def utf8Encode (s : String) : List Nat :=
  (s.toList.map (fun c => utf8EncodeChar c.toNat)).flatten

/-- `b.decode('utf-8')`, via the library model of UTF-8 decoding; `none`
models a raised `UnicodeDecodeError`. -/
def utf8DecodeOpt (b : List Nat) : Option String :=
  String.fromUTF8? (ByteArray.mk (Array.mk (b.map (fun n => UInt8.ofNat n))))

/-- `input_bytes = content if isinstance(content, (bytes, bytearray)) else
content.encode('utf-8')`. -/
def pyDataBytes : PyData → List Nat
  | .bytes b => b
  | .str s => utf8Encode s

/-- A filesystem (remote volume, container, or local disk) as an association
list from paths to byte contents. -/
abbrev FileStore := List (String × List Nat)

/-- Lookup in an association list, first match wins. -/
def lookupAssoc {α : Type} : List (String × α) → String → Option α
  | [], _ => none
  | (q, v) :: rest, p => if q = p then some v else lookupAssoc rest p

/-- Read the bytes stored at a path, `none` when the file is absent. -/
def storeRead (fs : FileStore) (p : String) : Option (List Nat) :=
  lookupAssoc fs p

/-- Store bytes at a path, replacing any previous content. -/
def storeWrite : FileStore → String → List Nat → FileStore
  | [], p, b => [(p, b)]
  | (q, c) :: rest, p, b =>
      if q = p then (p, b) :: rest else (q, c) :: storeWrite rest p b

/-- `str.startswith(pre)`. -/
def strStartsWith (s pre : String) : Bool := pre.toList.isPrefixOf s.toList

/-- `str.endswith(suf)`. -/
def strEndsWith (s suf : String) : Bool := suf.toList.isSuffixOf s.toList

/-- `os.path.basename`: the final path component after the last slash. -/
def pyBasename (p : String) : String :=
  String.mk ((p.toList.reverse.takeWhile (fun c => c ≠ '/')).reverse)

/-- `os.path.join(a, b)` for one trailing component. -/
def pyJoin (a b : String) : String :=
  if strStartsWith b "/" then b
  else if a = "" || strEndsWith a "/" then a ++ b
  else a ++ "/" ++ b

/-- Python `str.strip()` over ASCII whitespace. -/
def pyStrip (s : String) : String :=
  String.mk (((s.toList.dropWhile (fun c => isPySpace c)).reverse.dropWhile
    (fun c => isPySpace c)).reverse)

/-- Python ASCII lowercasing of one character. -/
def pyLowerChar (c : Char) : Char :=
  if 'A' ≤ c && c ≤ 'Z' then Char.ofNat (c.toNat + 32) else c

/-- Python `str.lower()` (ASCII case folding suffices for the values used). -/
def pyLower (s : String) : String := String.mk (s.toList.map pyLowerChar)

/-! ## Backends and their file operations -/

/-- The three execution backends: the E2B cloud sandbox (carrying
`getattr(sandbox, "id", None)`), `Beta9Sandbox`, and `DockerSandbox`. -/
inductive Backend
  | e2bSandbox (id : Option String)
  | beta9Sandbox
  | dockerSandbox
deriving DecidableEq, Repr

/-- Outcomes of the external subprocess and SDK calls made by backend file
operations, supplied as oracles. -/
structure BackendEnv where
  beta9CpOk : Bool
  dockerExecOk : Bool
  e2bOk : Bool
  e2bListOk : Bool
  e2bKillOk : Bool
deriving DecidableEq, Repr

/-- `Beta9Files` path normalization:
`remote_path = path if path.startswith('/') else f"/{path}"`. -/
def slashNorm (p : String) : String := if strStartsWith p "/" then p else "/" ++ p

/-- `files.write(path, content)` of the active backend.
`DockerFiles.write` runs `cat > path` with `check=True`, so a failed exec
raises `CalledProcessError`.  `Beta9Files.write` wraps its `beta9 cp` call in
`try/except` that only prints the error, so a failed copy leaves the volume
unchanged and raises nothing.  The E2B SDK write (external library, modelled
from its API contract) stores the bytes and raises on SDK failure. -/
def backendWrite (b : Backend) (env : BackendEnv) (fs : FileStore) (path : String)
    (content : PyData) : Except PyExc FileStore :=
  match b with
  | .dockerSandbox =>
      if env.dockerExecOk then .ok (storeWrite fs path (pyDataBytes content))
      else .error (.calledProcessError "docker compose exec returned non-zero exit status")
  | .beta9Sandbox =>
      if env.beta9CpOk then .ok (storeWrite fs (slashNorm path) (pyDataBytes content))
      else .ok fs
  | .e2bSandbox _ =>
      if env.e2bOk then .ok (storeWrite fs path (pyDataBytes content))
      else .error (.otherExc "e2b write failed")

/-- `files.read(path, format)` of the active backend.
`DockerFiles.read` runs `cat path` with `capture_output=True` and no text
mode, so `result.stdout` is a `bytes` object; a non-zero exit raises
`FileNotFoundError`; with `format='bytes'` it then evaluates
`result.stdout.encode('utf-8')`, which raises `AttributeError` because
`bytes` has no `encode` method, and with the default format it returns the
raw bytes object.  `Beta9Files.read` copies the volume file to a temp file,
reads it in binary, and maps every failure (including a decode error) to
`FileNotFoundError`.  The E2B SDK read (external library, modelled from its
API contract) returns the stored bytes for `format="bytes"`. -/
def backendRead (b : Backend) (env : BackendEnv) (fs : FileStore) (path fmt : String) :
    Except PyExc PyData :=
  match b with
  | .dockerSandbox =>
      if env.dockerExecOk then
        match storeRead fs path with
        | none => .error (.fileNotFound ("File not found: " ++ path))
        | some content =>
            if fmt = "bytes" then
              .error (.attributeError "bytes object has no attribute encode")
            else
              .ok (.bytes content)
      else .error (.fileNotFound ("File not found: " ++ path))
  | .beta9Sandbox =>
      if env.beta9CpOk then
        match storeRead fs (slashNorm path) with
        | none => .error (.fileNotFound ("File not found: " ++ path))
        | some content =>
            if fmt = "bytes" then .ok (.bytes content)
            else
              match utf8DecodeOpt content with
              | some s => .ok (.str s)
              | none => .error (.fileNotFound ("File not found: " ++ path))
      else .error (.fileNotFound ("File not found: " ++ path))
  | .e2bSandbox _ =>
      if env.e2bOk then
        match storeRead fs path with
        | none => .error (.fileNotFound ("File not found: " ++ path))
        | some content =>
            if fmt = "bytes" then .ok (.bytes content)
            else
              match utf8DecodeOpt content with
              | some s => .ok (.str s)
              | none => .error (.otherExc "e2b decode failed")
      else .error (.fileNotFound ("File not found: " ++ path))

/-- `sandbox.files.list("/")` as used by the health probe.  `DockerFiles.list`
and `Beta9Files.list` wrap their subprocess in `try/except` and return a list
(possibly empty), never raising; only the E2B SDK call can raise. -/
def backendList (b : Backend) (env : BackendEnv) : Except PyExc Unit :=
  match b with
  | .e2bSandbox _ =>
      if env.e2bListOk then .ok () else .error (.otherExc "sandbox dead")
  | .beta9Sandbox => .ok ()
  | .dockerSandbox => .ok ()

/-- `sandbox.kill()`: a no-op `pass` for `Beta9Sandbox` and `DockerSandbox`;
the E2B SDK call can raise. -/
def backendKill (b : Backend) (env : BackendEnv) : Except PyExc Unit :=
  match b with
  | .e2bSandbox _ =>
      if env.e2bKillOk then .ok () else .error (.otherExc "kill failed")
  | .beta9Sandbox => .ok ()
  | .dockerSandbox => .ok ()

/-! ## Session manager (`SessionSandbox`) -/

/-- The mutable fields of the `SessionSandbox` singleton. -/
structure SessionState where
  sandbox : Option Backend
  sandbox_id : Option String
  uploaded_reference_files : List (String × String)
  use_local_fallback : Bool
deriving DecidableEq, Repr

/-- A fresh `SessionSandbox.__init__` state. -/
def initialSessionState : SessionState :=
  { sandbox := none, sandbox_id := none, uploaded_reference_files := [],
    use_local_fallback := false }

/-- Inputs consulted when a new sandbox is created: whether the
`e2b_code_interpreter` import succeeded (`Sandbox` is not `None`), the
`E2B_API_KEY` environment variable, the outcome of `Sandbox.create` (carrying
`getattr(sandbox, "id", None)` on success), and whether the `beta9` import
succeeded. -/
structure CreateEnv where
  sdkAvailable : Bool
  e2bKey : Option String
  e2bCreate : Except String (Option String)
  beta9Available : Bool
deriving Repr

/-- The guard
`Sandbox and e2b_key and e2b_key.strip() and e2b_key != "your-e2b-api-key-here"`. -/
def e2bConfigured (ce : CreateEnv) : Bool :=
  ce.sdkAvailable &&
    match ce.e2bKey with
    | none => false
    | some k => k != "" && pyStrip k != "" && k != "your-e2b-api-key-here"

/-- The creation branch of `get_or_create_sandbox` (executed when
`self.sandbox is None`): try E2B when configured, falling back to
`Beta9Sandbox` with id `"beta9-fallback"` on creation failure; otherwise use
`Beta9Sandbox` with id `"beta9-primary"` when the `beta9` client imported,
else `DockerSandbox` with id `"docker-fallback"`. -/
def createSandbox (ce : CreateEnv) (st : SessionState) : SessionState × Backend :=
  if e2bConfigured ce then
    match ce.e2bCreate with
    | .ok id =>
        ({ st with sandbox := some (.e2bSandbox id), sandbox_id := id,
                   use_local_fallback := false }, .e2bSandbox id)
    | .error _ =>
        ({ st with sandbox := some .beta9Sandbox, sandbox_id := some "beta9-fallback",
                   use_local_fallback := true }, .beta9Sandbox)
  else if ce.beta9Available then
    ({ st with sandbox := some .beta9Sandbox, sandbox_id := some "beta9-primary",
               use_local_fallback := true }, .beta9Sandbox)
  else
    ({ st with sandbox := some .dockerSandbox, sandbox_id := some "docker-fallback",
               use_local_fallback := true }, .dockerSandbox)

/-- `SessionSandbox.get_or_create_sandbox`: when a sandbox exists, probe it
with `self.sandbox.files.list("/")` and return it unchanged on success; on
probe failure kill it inside `try/except: pass` (the kill outcome is
discarded), clear `sandbox`, `sandbox_id` and `uploaded_reference_files`, and
fall through to creation. -/
def get_or_create_sandbox (st : SessionState) (env : BackendEnv) (ce : CreateEnv) :
    SessionState × Backend :=
  match st.sandbox with
  | some b =>
      match backendList b env with
      | .ok _ => (st, b)
      | .error _ =>
          let _ := backendKill b env
          createSandbox ce { st with sandbox := none, sandbox_id := none,
                                     uploaded_reference_files := [] }
  | none => createSandbox ce st

/-- `SessionSandbox.upload_reference_file`.  `localFs` models the local disk
(`os.path.exists` and `open(local_path, 'rb')`), `remoteFs` the active
backend's filesystem.  On success it returns the remote path, the updated
session state and remote filesystem, and the list of backend write attempts
performed (one entry per `sandbox.files.write` call). -/
def upload_reference_file (st : SessionState) (env : BackendEnv) (ce : CreateEnv)
    (localFs remoteFs : FileStore) (local_path remote_dir : String) :
    Except PyExc (String × SessionState × FileStore × List String) :=
  match storeRead localFs local_path with
  | none => .error (.fileNotFound ("Reference file not found: " ++ local_path))
  | some content =>
      match lookupAssoc st.uploaded_reference_files local_path with
      | some cached => .ok (cached, st, remoteFs, [])
      | none =>
          let (st1, sb) := get_or_create_sandbox st env ce
          let filename := pyBasename local_path
          let remote_path := remote_dir ++ "/" ++ filename
          match backendWrite sb env remoteFs remote_path (.bytes content) with
          | .ok remoteFs1 =>
              .ok (remote_path,
                   { st1 with uploaded_reference_files :=
                       st1.uploaded_reference_files ++ [(local_path, remote_path)] },
                   remoteFs1, [remote_path])
          | .error e =>
              .error (.runtimeError ("Failed to upload file " ++ local_path ++ " to "
                        ++ remote_path ++ ": " ++ pyExcMsg e))

/-- `SessionSandbox.download_artifact`: requires an active sandbox, reads the
remote file with `format="bytes"`, creates the local directory, writes the
bytes to `local_dir/basename(remote_path)` and returns that path together
with the updated local filesystem; any failure inside the body is wrapped in
`RuntimeError`. -/
def download_artifact (st : SessionState) (env : BackendEnv)
    (remoteFs localFs : FileStore) (remote_path local_dir : String) :
    Except PyExc (String × FileStore) :=
  match st.sandbox with
  | none => .error (.runtimeError "No active sandbox")
  | some sb =>
      match backendRead sb env remoteFs remote_path "bytes" with
      | .error e =>
          .error (.runtimeError ("Failed to download " ++ remote_path ++ ": " ++ pyExcMsg e))
      | .ok (.bytes content) =>
          let local_path := pyJoin local_dir (pyBasename remote_path)
          .ok (local_path, storeWrite localFs local_path content)
      | .ok (.str _) =>
          .error (.runtimeError ("Failed to download " ++ remote_path
                    ++ ": write() argument must be bytes"))

/-! ## The `execute_code` operation -/

/-- `logs.stdout`: the E2B SDK reports a list of strings, the helper
`ExecutionResult` classes a single string; `execute_code` joins a list with
newlines and applies `str` otherwise. -/
inductive StdoutVal
  | str (s : String)
  | list (xs : List String)
deriving DecidableEq, Repr

/-- The `logs` attribute of an execution result. -/
structure Logs where
  stdout : StdoutVal
  stderr : String
deriving DecidableEq, Repr

/-- The normalized execution result every backend produces. -/
structure ExecutionResult where
  logs : Logs
  error : Option String
deriving DecidableEq, Repr

/-- `_global_state` as consumed by `execute_code`: only the keys
`"data_path"` and `"current_date"` are read. -/
structure GlobalState where
  data_path : Option String
  current_date : Option String
deriving DecidableEq, Repr

/-- Python truthiness of `global_state.get("data_path")`. -/
def dataPathTruthy (g : GlobalState) : Bool :=
  match g.data_path with
  | some s => s != ""
  | none => false

/-- The value stored under the `"stdout"` response key:
`logs if success else ""`. -/
inductive StdoutField
  | logsVal (l : Logs)
  | emptyStr
deriving DecidableEq, Repr

/-- The response dictionary of `execute_code`; a `none` field models an
absent key.  `sandbox_id` holds `session_sandbox.sandbox_id`, itself an
`Optional[str]`. -/
structure Response where
  success : Option Bool
  exit_code : Option Nat
  stdout : Option StdoutField
  stderr : Option String
  sandbox_id : Option (Option String)
  message : Option String
  downloaded_artifacts : Option (List String)
  error : Option String
  supported_languages : Option (List String)
deriving DecidableEq, Repr

/-- A dictionary with no keys set. -/
def Response.empty : Response :=
  { success := none, exit_code := none, stdout := none, stderr := none,
    sandbox_id := none, message := none, downloaded_artifacts := none,
    error := none, supported_languages := none }

/-- Interpolation of an `Optional[str]` into an f-string. -/
def optStr : Option String → String
  | some s => s
  | none => "None"

/-- Inputs to one `execute_code` call beyond the session state: the outcome
of `_get_global_state()` (`.error` models a raised import/lookup exception,
caught and replaced by `{}`), the backend and creation oracles, the outcome
of `sandbox.run_code(code)` (`.error` models a raised exception), and the
remote and local filesystems. -/
structure ExecEnv where
  globalState : Except Unit GlobalState
  benv : BackendEnv
  cenv : CreateEnv
  runResult : Except String ExecutionResult
  remoteFs : FileStore
  localFs : FileStore

/-- The observable outcome of one `execute_code` call: the returned response,
the session singleton state afterwards, the local filesystem afterwards, the
list of artifact download attempts made, and whether any session/backend
operation was performed at all. -/
structure ExecOut where
  resp : Response
  state : SessionState
  localFs : FileStore
  downloadsAttempted : List String
  backendTouched : Bool

/-- The artifact download loop of `execute_code`: each path is attempted via
`download_artifact`; a failed download is only warned about (printed) and
skipped, successes are collected in order. -/
def downloadAll (st : SessionState) (env : BackendEnv) (remoteFs : FileStore)
    (local_dir : String) : List String → FileStore → List String × FileStore
  | [], lfs => ([], lfs)
  | p :: rest, lfs =>
      match download_artifact st env remoteFs lfs p local_dir with
      | .ok (lp, lfs1) =>
          let (acc, lfs2) := downloadAll st env remoteFs local_dir rest lfs1
          (lp :: acc, lfs2)
      | .error _ => downloadAll st env remoteFs local_dir rest lfs

/-- The top-level `execute_code` tool, translated clause by clause from the
source: input validation, global-state lookup, session acquisition, code
execution, artifact scanning and download, and response assembly.  Every
potentially raising sub-call is supplied as an `Except` value in `env` and
handled exactly where the Python `try/except` blocks handle it, so the
function is total: no exception escapes to the caller. -/
def execute_code (code language : String) (st : SessionState) (env : ExecEnv) : ExecOut :=
  if code = "" then
    { resp := { Response.empty with error := some "Code cannot be empty" },
      state := st, localFs := env.localFs, downloadsAttempted := [],
      backendTouched := false }
  else
    let lang := pyStrip (pyLower language)
    if lang != "python" then
      { resp := { Response.empty with
                  error := some ("Language '" ++ lang ++ "' not supported"),
                  supported_languages := some ["python"] },
        state := st, localFs := env.localFs, downloadsAttempted := [],
        backendTouched := false }
    else
      let gs := match env.globalState with
        | .ok g => g
        | .error _ => { data_path := none, current_date := none }
      let (st1, _sb) := get_or_create_sandbox st env.benv env.cenv
      match env.runResult with
      | .error e =>
          { resp := { Response.empty with
                      success := some false,
                      error := some ("Sandbox execution failed: " ++ e) },
            state := st1, localFs := env.localFs, downloadsAttempted := [],
            backendTouched := true }
      | .ok execution =>
          let logs := execution.logs
          let error := execution.error
          let success := error.isNone
          let stdout_str := match logs.stdout with
            | .str s => s
            | .list xs => String.intercalate "\n" xs
          let artifact_paths :=
            if success && hasSubseq artifactMarker stdout_str.toList then
              findallArtifactPaths stdout_str
            else []
          let doDownload := !artifact_paths.isEmpty && dataPathTruthy gs
          let sandbox_dir :=
            pyJoin (pyJoin (gs.data_path.getD "") "sandbox") (gs.current_date.getD "unknown")
          let (downloaded, lfs1) :=
            if doDownload then
              downloadAll st1 env.benv env.remoteFs sandbox_dir artifact_paths env.localFs
            else ([], env.localFs)
          let attempted := if doDownload then artifact_paths else []
          let sid := st1.sandbox_id
          let baseMsg :=
            if success then "✅ Code executed in " ++ optStr sid
            else "❌ " ++ optStr sid ++ " execution reported an error"
          let refMsg :=
            if st1.uploaded_reference_files.isEmpty then baseMsg
            else baseMsg
              ++ "\n\n📎 REFERENCE FILES AVAILABLE in sandbox at /home/user/reference_files/:"
              ++ String.join (st1.uploaded_reference_files.map (fun kv =>
                   "\n  • " ++ pyBasename kv.2 ++ " at " ++ kv.2))
          let fullMsg :=
            if downloaded.isEmpty then refMsg
            else refMsg
              ++ "\n\n📥 DOWNLOADED " ++ toString downloaded.length
              ++ " ARTIFACT(S) - Use these paths for submit_work:"
              ++ String.join (downloaded.map (fun p => "\n  ✅ " ++ p))
              ++ "\n\n⚠️ IMPORTANT: Use the paths above (not /tmp/ paths) when calling submit_work!"
          { resp := { success := some success,
                      exit_code := some (if success then 0 else 1),
                      stdout := some (if success then .logsVal logs else .emptyStr),
                      stderr := some (match error with | some e => e | none => ""),
                      sandbox_id := some sid,
                      message := some fullMsg,
                      downloaded_artifacts :=
                        if downloaded.isEmpty then none else some downloaded,
                      error := none,
                      supported_languages := none },
            state := st1, localFs := lfs1, downloadsAttempted := attempted,
            backendTouched := true }

/-! ## Concrete fixtures used in witnesses and counterexamples -/

/-- Backend oracles with every external call succeeding. -/
def oracleEnvOk : BackendEnv :=
  { beta9CpOk := true, dockerExecOk := true, e2bOk := true,
    e2bListOk := true, e2bKillOk := true }

/-- A host without the E2B SDK but with the beta9 client importable. -/
def ceBeta9 : CreateEnv :=
  { sdkAvailable := false, e2bKey := none, e2bCreate := .error "sdk unavailable",
    beta9Available := true }

/-- A session whose live backend is the Docker container. -/
def dockerSessionState : SessionState :=
  { sandbox := some .dockerSandbox, sandbox_id := some "docker-fallback",
    uploaded_reference_files := [], use_local_fallback := true }

/-- A session whose live backend is the Beta9 endpoint. -/
def beta9SessionState : SessionState :=
  { sandbox := some .beta9Sandbox, sandbox_id := some "beta9-primary",
    uploaded_reference_files := [], use_local_fallback := true }

/-- An execution result that reports an error alongside its stdout. -/
def failedRun : ExecutionResult :=
  { logs := { stdout := .str "a\nARTIFACT_PATH:/tmp/x.txt\nb\nARTIFACT_PATH:/tmp/y.png\n",
              stderr := "" },
    error := some "NameError: name 'x' is not defined" }

/-- An execution environment for witnesses: beta9 session, failing run. -/
def envFailedRun : ExecEnv :=
  { globalState := .ok { data_path := some "/srv/data", current_date := some "2026-10-12" },
    benv := oracleEnvOk, cenv := ceBeta9, runResult := .ok failedRun,
    remoteFs := [("/tmp/x.txt", [1]), ("/tmp/y.png", [2])], localFs := [] }

/-! ## C1: artifact scanner -/

/-- Every token produced by the scan is non-empty and whitespace-free. -/
theorem scanAux_tokens (l : List Char) :
    ∀ t ∈ scanAux l, t ≠ [] ∧ ∀ c ∈ t, isPySpace c = false := by
  induction l using scanAux.induct with
  | case1 => simp [scanAux]
  | case2 c rest hpre tok htok ih =>
      intro t ht
      rw [scanAux] at ht
      simp only [if_pos hpre] at ht
      rw [if_pos] at ht
      · exact ih t ht
      · simpa [tok] using htok
  | case3 c rest hpre tok htok ih =>
      intro t ht
      rw [scanAux] at ht
      simp only [if_pos hpre] at ht
      rw [if_neg] at ht
      · rw [List.mem_cons] at ht
        rcases ht with h | h
        · subst h
          constructor
          · simpa [tok, List.isEmpty_iff] using htok
          · intro ch hch
            have := List.mem_takeWhile_imp (hch : ch ∈ _)
            simpa using this
        · exact ih t h
      · simpa [tok] using htok
  | case4 c rest hpre ih =>
      intro t ht
      rw [scanAux] at ht
      simp only [if_neg hpre] at ht
      exact ih t ht

/-- C1 counterexample: on the stdout "ARTIFACT_PATH:ARTIFACT_PATH:/x" the
code's regex findall scan is non-overlapping and extracts a single token,
while the claim's reading — one token for each literal occurrence of the
marker — yields two tokens. -/
theorem c1_counterexample :
    findallArtifactPaths "ARTIFACT_PATH:ARTIFACT_PATH:/x" = ["ARTIFACT_PATH:/x"] ∧
    claimedArtifactScan "ARTIFACT_PATH:ARTIFACT_PATH:/x" = ["ARTIFACT_PATH:/x", "/x"] ∧
    findallArtifactPaths "ARTIFACT_PATH:ARTIFACT_PATH:/x"
      ≠ claimedArtifactScan "ARTIFACT_PATH:ARTIFACT_PATH:/x" := by
  have h1 : findallArtifactPaths "ARTIFACT_PATH:ARTIFACT_PATH:/x"
      = ["ARTIFACT_PATH:/x"] := by
    simp [findallArtifactPaths, scanAux, artifactMarker, isPySpace]
  have h2 : claimedArtifactScan "ARTIFACT_PATH:ARTIFACT_PATH:/x"
      = ["ARTIFACT_PATH:/x", "/x"] := by
    simp [claimedArtifactScan, artifactMarker, isPySpace, List.range_succ]
  exact ⟨h1, h2, by rw [h1, h2]; simp⟩

/-- C1 (amended): the artifact scan extracts the maximal non-empty
whitespace-free tokens following `ARTIFACT_PATH:` markers in one
left-to-right pass that consumes matched text (an occurrence beginning
inside an already-extracted token is not matched separately); on the spec's
example stdout it yields exactly ["/tmp/x.txt", "/tmp/y.png"]; duplicates
are preserved in first-occurrence order; every extracted token is non-empty
and whitespace-free; and an execution whose result carries an error
extracts and downloads no artifacts regardless of stdout content. -/
theorem c1_artifact_scan :
    findallArtifactPaths "a\nARTIFACT_PATH:/tmp/x.txt\nb\nARTIFACT_PATH:/tmp/y.png\n"
      = ["/tmp/x.txt", "/tmp/y.png"] ∧
    findallArtifactPaths "ARTIFACT_PATH:/a ARTIFACT_PATH:/b ARTIFACT_PATH:/a"
      = ["/a", "/b", "/a"] ∧
    (∀ l : List Char, ∀ t ∈ scanAux l, t ≠ [] ∧ ∀ c ∈ t, isPySpace c = false) ∧
    (∀ code language : String, ∀ st : SessionState, ∀ env : ExecEnv,
      ∀ r : ExecutionResult,
      code ≠ "" → pyStrip (pyLower language) = "python" →
      env.runResult = .ok r → r.error.isSome →
      (execute_code code language st env).resp.downloaded_artifacts = none ∧
      (execute_code code language st env).downloadsAttempted = []) := by
  refine ⟨by simp [findallArtifactPaths, scanAux, artifactMarker, isPySpace],
          by simp [findallArtifactPaths, scanAux, artifactMarker, isPySpace],
          scanAux_tokens, ?_⟩
  intro code language st env r hc hl hr herr
  have hsucc : r.error.isNone = false := by
    cases h : r.error <;> simp_all
  unfold execute_code
  simp [hc, hl, hr, hsucc]

/-- C1 witness: the unsuccessful-execution clause of `c1_artifact_scan`
applied to a failing run whose stdout contains two artifact markers. -/
theorem c1_artifact_scan_witness :
    (execute_code "print(1)" "python" beta9SessionState envFailedRun).resp.downloaded_artifacts
        = none ∧
    (execute_code "print(1)" "python" beta9SessionState envFailedRun).downloadsAttempted
        = [] :=
  c1_artifact_scan.2.2.2 "print(1)" "python" beta9SessionState envFailedRun failedRun
    (by decide) (by decide) rfl rfl

/-! ## C2: download round-trip fidelity -/

/-- Reading back a just-written path returns the written bytes. -/
theorem storeRead_storeWrite (fs : FileStore) (p : String) (b : List Nat) :
    storeRead (storeWrite fs p b) p = some b := by
  induction fs with
  | nil => simp [storeRead, storeWrite, lookupAssoc]
  | cons kv rest ih =>
      obtain ⟨q, c⟩ := kv
      by_cases hq : q = p
      · simp [storeRead, storeWrite, lookupAssoc, hq]
      · simp only [storeRead, storeWrite, lookupAssoc, if_neg hq]
        exact ih

/-- A round-trip through the Beta9 backend is byte-identical: supporting
evidence that binary fidelity is the intended contract of
`download_artifact` (its own comment: "Read file content as bytes to prevent
corruption of binary files"). -/
theorem beta9_roundtrip (b : List Nat) (st : SessionState) (p dir : String)
    (fs fs1 : FileStore) (hsb : st.sandbox = some .beta9Sandbox)
    (hw : backendWrite .beta9Sandbox oracleEnvOk fs p (.bytes b) = .ok fs1) :
    download_artifact st oracleEnvOk fs1 [] p dir
      = .ok (pyJoin dir (pyBasename p), [(pyJoin dir (pyBasename p), b)]) := by
  have hwrite : fs1 = storeWrite fs (slashNorm p) b := by
    simpa [backendWrite, oracleEnvOk, pyDataBytes] using hw.symm
  have hlook : storeRead fs1 (slashNorm p) = some b := by
    rw [hwrite]; exact storeRead_storeWrite fs (slashNorm p) b
  simp [download_artifact, hsb, backendRead, oracleEnvOk, hlook, storeWrite]

/-- C2: the code contradicts the binary-fidelity contract on the Docker
backend.  Bytes [104, 105] are stored at /tmp/hi.bin by DockerFiles.write,
but `download_artifact` fails: DockerFiles.read runs its subprocess without
text mode, so `result.stdout` is a bytes object, and with `format='bytes'`
it evaluates `result.stdout.encode('utf-8')`, raising AttributeError, which
`download_artifact` wraps into RuntimeError — no byte-identical local copy
is ever produced. -/
theorem c2_docker_download_bug :
    backendWrite .dockerSandbox oracleEnvOk [] "/tmp/hi.bin" (.bytes [104, 105])
      = .ok [("/tmp/hi.bin", [104, 105])] ∧
    download_artifact dockerSessionState oracleEnvOk [("/tmp/hi.bin", [104, 105])] []
        "/tmp/hi.bin" "/out"
      = .error (.runtimeError
          "Failed to download /tmp/hi.bin: bytes object has no attribute encode") := by
  constructor <;> rfl

/-! ## C3, C4: response shape of `execute_code` -/

/-- C3: for non-empty code and language "python", `execute_code` — total
here because every raising sub-call (global-state lookup, session creation,
run, artifact download) is fed to the handler the source wraps around it,
so no exception reaches the caller — always returns a response containing
the `success` key. -/
theorem c3_always_success_key (code language : String) (st : SessionState)
    (env : ExecEnv) (hc : code ≠ "") (hl : language = "python") :
    ((execute_code code language st env).resp.success).isSome := by
  subst hl
  have hlang : pyStrip (pyLower "python") = "python" := by decide
  unfold execute_code
  cases hr : env.runResult <;> simp [hc, hlang, hr]

/-- C3 witness: a concrete non-empty python call carries the success key. -/
theorem c3_always_success_key_witness :
    ((execute_code "print(1)" "python" beta9SessionState envFailedRun).resp.success).isSome :=
  c3_always_success_key "print(1)" "python" beta9SessionState envFailedRun
    (by decide) rfl

/-- C4: whenever the run call returns an ExecutionResult, the response's
success flag is exactly `error is None`, and the exit code is 0 on success
and 1 on failure. -/
theorem c4_success_iff_error_none (code language : String) (st : SessionState)
    (env : ExecEnv) (r : ExecutionResult) (hc : code ≠ "")
    (hl : pyStrip (pyLower language) = "python") (hr : env.runResult = .ok r) :
    (execute_code code language st env).resp.success = some r.error.isNone ∧
    (execute_code code language st env).resp.exit_code
      = some (if r.error.isNone then 0 else 1) := by
  unfold execute_code
  simp [hc, hl, hr]

/-- C4 witness: a concrete failing run yields success = some false and
exit code 1. -/
theorem c4_success_iff_error_none_witness :
    (execute_code "print(1)" "python" beta9SessionState envFailedRun).resp.success
        = some failedRun.error.isNone ∧
    (execute_code "print(1)" "python" beta9SessionState envFailedRun).resp.exit_code
        = some (if failedRun.error.isNone then 0 else 1) :=
  c4_success_iff_error_none "print(1)" "python" beta9SessionState envFailedRun failedRun
    (by decide) (by decide) rfl

/-! ## C5: backend selection policy -/

/-- The spec's three backend kinds. -/
inductive BackendKind
  | cloud
  | serverless
  | localContainer
deriving DecidableEq, Repr

/-- The kind of a live backend object. -/
def kindOf : Backend → BackendKind
  | .e2bSandbox _ => .cloud
  | .beta9Sandbox => .serverless
  | .dockerSandbox => .localContainer

/-- Claim C5's credential test: present, non-blank, and not the placeholder
value. -/
def credentialUsable : Option String → Bool
  | none => false
  | some k => pyStrip k != "" && k != "your-e2b-api-key-here"

/-- Modelled from claim C5's words alone: when a usable credential is
present, cloud creation is attempted, with serverless fallback id
"beta9-fallback" on failure; with no usable credential, serverless is
primary when the client library is available; otherwise local container.
(The claim states no condition on the cloud SDK being importable.) -/
def claimedCreationPolicy (ce : CreateEnv) : BackendKind × Option String :=
  if credentialUsable ce.e2bKey then
    match ce.e2bCreate with
    | .ok id => (.cloud, id)
    | .error _ => (.serverless, some "beta9-fallback")
  else if ce.beta9Available then (.serverless, some "beta9-primary")
  else (.localContainer, some "docker-fallback")

/-- The amended policy: as claimed, except that cloud creation is attempted
only when the E2B SDK imported and the credential is usable. -/
def amendedCreationPolicy (ce : CreateEnv) : BackendKind × Option String :=
  if ce.sdkAvailable && credentialUsable ce.e2bKey then
    match ce.e2bCreate with
    | .ok id => (.cloud, id)
    | .error _ => (.serverless, some "beta9-fallback")
  else if ce.beta9Available then (.serverless, some "beta9-primary")
  else (.localContainer, some "docker-fallback")

/-- The source's creation guard coincides with SDK availability conjoined
with the claim's credential test (the `e2b_key` truthiness conjunct is
subsumed by non-blankness of the stripped key). -/
theorem e2bConfigured_eq (ce : CreateEnv) :
    e2bConfigured ce = (ce.sdkAvailable && credentialUsable ce.e2bKey) := by
  cases hk : ce.e2bKey with
  | none => simp [e2bConfigured, credentialUsable, hk]
  | some k =>
      by_cases h : k = ""
      · subst h
        simp [e2bConfigured, credentialUsable, hk]
        intro
        rfl
      · have hk2 : (k != "") = true := by simpa using h
        simp [e2bConfigured, credentialUsable, hk, hk2]

/-- A host with the beta9 client and a valid credential but no E2B SDK. -/
def ceNoSdk : CreateEnv :=
  { sdkAvailable := false, e2bKey := some "k", e2bCreate := .ok (some "sb-1"),
    beta9Available := true }

/-- C5 counterexample: with the SDK import failed but a present, non-blank,
non-placeholder credential, the claim's policy attempts cloud creation (here
succeeding with id "sb-1"), while the code never attempts it and creates the
serverless backend as primary. -/
theorem c5_counterexample :
    claimedCreationPolicy ceNoSdk = (.cloud, some "sb-1") ∧
    kindOf (get_or_create_sandbox initialSessionState oracleEnvOk ceNoSdk).2
      = .serverless ∧
    (get_or_create_sandbox initialSessionState oracleEnvOk ceNoSdk).1.sandbox_id
      = some "beta9-primary" := by
  refine ⟨?_, ?_, ?_⟩ <;> rfl

/-- C5 (amended): session creation follows the claimed priority order with
the additional, code-mandated condition that the cloud SDK is importable:
cloud is attempted iff the SDK is available and the credential usable, the
serverless fallback carries id "beta9-fallback", serverless-as-primary
carries "beta9-primary", the local container carries "docker-fallback", and
the resulting state's sandbox_id and stored backend always describe the
backend actually live, never a failed primary. -/
theorem c5_creation_policy (ce : CreateEnv) (env : BackendEnv) (st : SessionState)
    (h : st.sandbox = none) :
    kindOf (get_or_create_sandbox st env ce).2 = (amendedCreationPolicy ce).1 ∧
    (get_or_create_sandbox st env ce).1.sandbox_id = (amendedCreationPolicy ce).2 ∧
    (get_or_create_sandbox st env ce).1.sandbox
      = some (get_or_create_sandbox st env ce).2 := by
  unfold get_or_create_sandbox createSandbox amendedCreationPolicy
  rw [h, e2bConfigured_eq]
  cases hsdk : ce.sdkAvailable <;> cases hcred : credentialUsable ce.e2bKey <;>
    cases hb : ce.beta9Available <;> cases hcr : ce.e2bCreate <;>
      simp [hsdk, hcred, hb, hcr, kindOf]

/-- C5 witness: on a host without the SDK or credential but with the beta9
client, creation yields the serverless backend as primary, matching the
amended policy. -/
theorem c5_creation_policy_witness :
    kindOf (get_or_create_sandbox initialSessionState oracleEnvOk ceBeta9).2
        = BackendKind.serverless ∧
    (get_or_create_sandbox initialSessionState oracleEnvOk ceBeta9).1.sandbox_id
        = some "beta9-primary" ∧
    (get_or_create_sandbox initialSessionState oracleEnvOk ceBeta9).1.sandbox
        = some (get_or_create_sandbox initialSessionState oracleEnvOk ceBeta9).2 := by
  have h := c5_creation_policy ceBeta9 oracleEnvOk initialSessionState rfl
  simpa [amendedCreationPolicy, credentialUsable, ceBeta9] using h

/-! ## C6, C7: reference-file upload -/

/-- Appending a fresh binding makes it visible to lookup. -/
theorem lookupAssoc_append_self {α : Type} (l : List (String × α)) (k : String) (v : α)
    (h : lookupAssoc l k = none) : lookupAssoc (l ++ [(k, v)]) k = some v := by
  induction l with
  | nil => simp [lookupAssoc]
  | cons kv rest ih =>
      obtain ⟨q, c⟩ := kv
      by_cases hq : q = k
      · simp [lookupAssoc, hq] at h
      · simp only [List.cons_append, lookupAssoc, if_neg hq] at h ⊢
        exact ih h

/-- `get_or_create_sandbox` either keeps the upload cache (healthy or absent
sandbox) or clears it (dead sandbox). -/
theorem get_or_create_uploads (st : SessionState) (env : BackendEnv) (ce : CreateEnv) :
    (get_or_create_sandbox st env ce).1.uploaded_reference_files
        = st.uploaded_reference_files ∨
    (get_or_create_sandbox st env ce).1.uploaded_reference_files = [] := by
  unfold get_or_create_sandbox createSandbox
  cases hs : st.sandbox with
  | none =>
      by_cases hcfg : e2bConfigured ce <;> by_cases hb : ce.beta9Available <;>
        rcases hcr : ce.e2bCreate with id | e <;> simp [hcfg, hb, hcr]
  | some b =>
      cases hp : backendList b env with
      | ok u => simp [hp]
      | error e =>
          by_cases hcfg : e2bConfigured ce <;> by_cases hb : ce.beta9Available <;>
            rcases hcr : ce.e2bCreate with id | e2 <;> simp [hcfg, hb, hcr, hp]

/-- C6: when an upload of `lp` succeeds, a second upload of `lp` in the same
session returns the identical remote path, performs no backend write, and
leaves the session state and remote filesystem unchanged. -/
theorem c6_upload_idempotent (st : SessionState) (env : BackendEnv) (ce : CreateEnv)
    (localFs remoteFs : FileStore) (lp dir r : String) (st1 : SessionState)
    (remoteFs1 : FileStore) (ws : List String)
    (h : upload_reference_file st env ce localFs remoteFs lp dir
          = .ok (r, st1, remoteFs1, ws)) :
    upload_reference_file st1 env ce localFs remoteFs1 lp dir
      = .ok (r, st1, remoteFs1, []) := by
  unfold upload_reference_file at h ⊢
  cases hread : storeRead localFs lp with
  | none => simp [hread] at h
  | some content =>
      simp only [hread] at h ⊢
      cases hcache : lookupAssoc st.uploaded_reference_files lp with
      | some cached =>
          simp only [hcache] at h
          obtain ⟨h1, h2, h3, h4⟩ := by simpa using h
          subst h2
          simp [hcache, h1, h3]
      | none =>
          simp only [hcache] at h
          rcases hga : get_or_create_sandbox st env ce with ⟨stA, sb⟩
          rw [hga] at h
          cases hw : backendWrite sb env remoteFs (dir ++ "/" ++ pyBasename lp)
              (.bytes content) with
          | error e => simp [hw] at h
          | ok fs1 =>
              simp only [hw] at h
              obtain ⟨h1, h2, h3, h4⟩ := by simpa using h
              have hA : lookupAssoc stA.uploaded_reference_files lp = none := by
                rcases get_or_create_uploads st env ce with hu | hu <;>
                  rw [hga] at hu <;> simp only at hu <;> rw [hu]
                · exact hcache
                · simp [lookupAssoc]
              have hlook : lookupAssoc st1.uploaded_reference_files lp
                  = some (dir ++ "/" ++ pyBasename lp) := by
                rw [← h2]
                simpa using lookupAssoc_append_self stA.uploaded_reference_files lp
                  (dir ++ "/" ++ pyBasename lp) hA
              rw [hlook, h1]

/-- C6 witness: the idempotence theorem applied to a concrete first upload
through the Docker backend. -/
theorem c6_upload_idempotent_witness :
    upload_reference_file
        { dockerSessionState with uploaded_reference_files :=
            [("/data/ref.txt", "/home/user/reference_files/ref.txt")] }
        oracleEnvOk ceBeta9 [("/data/ref.txt", [1, 2, 3])]
        [("/home/user/reference_files/ref.txt", [1, 2, 3])] "/data/ref.txt"
        "/home/user/reference_files"
      = .ok ("/home/user/reference_files/ref.txt",
             { dockerSessionState with uploaded_reference_files :=
                 [("/data/ref.txt", "/home/user/reference_files/ref.txt")] },
             [("/home/user/reference_files/ref.txt", [1, 2, 3])], []) :=
  c6_upload_idempotent dockerSessionState oracleEnvOk ceBeta9
    [("/data/ref.txt", [1, 2, 3])] [] "/data/ref.txt" "/home/user/reference_files"
    "/home/user/reference_files/ref.txt"
    { dockerSessionState with uploaded_reference_files :=
        [("/data/ref.txt", "/home/user/reference_files/ref.txt")] }
    [("/home/user/reference_files/ref.txt", [1, 2, 3])]
    ["/home/user/reference_files/ref.txt"] (by rfl)

/-- A backend environment where the `beta9 cp` subprocess fails. -/
def envCpFail : BackendEnv :=
  { beta9CpOk := false, dockerExecOk := true, e2bOk := true,
    e2bListOk := true, e2bKillOk := true }

/-- A backend environment where the docker exec write fails. -/
def envDockerFail : BackendEnv :=
  { beta9CpOk := true, dockerExecOk := false, e2bOk := true,
    e2bListOk := true, e2bKillOk := true }

/-- C7 counterexample: with the Beta9 backend live and the underlying
`beta9 cp` write failing, the upload does not raise: Beta9Files.write's
except-block swallows the failure, so upload_reference_file returns the
remote path and records the mapping even though the volume received no
bytes (the write attempt list is nonempty, the remote store stays empty). -/
theorem c7_counterexample :
    backendWrite .beta9Sandbox envCpFail []
        "/home/user/reference_files/ref.txt" (.bytes [1, 2, 3]) = .ok [] ∧
    upload_reference_file beta9SessionState envCpFail ceBeta9
        [("/data/ref.txt", [1, 2, 3])] [] "/data/ref.txt" "/home/user/reference_files"
      = .ok ("/home/user/reference_files/ref.txt",
             { beta9SessionState with uploaded_reference_files :=
                 [("/data/ref.txt", "/home/user/reference_files/ref.txt")] },
             [], ["/home/user/reference_files/ref.txt"]) := by
  constructor <;> rfl

/-- C7 (amended): for every upload where the backend file-write raises a
failure — which the cloud and local-container variants do, while the
serverless variant swallows its write failure internally and so never
triggers this path — upload_reference_file raises a RuntimeError wrapping
the cause, and no mapping is recorded (the raise precedes the cache
assignment, so no updated state is produced). -/
theorem c7_upload_write_failure (st : SessionState) (env : BackendEnv) (ce : CreateEnv)
    (localFs remoteFs : FileStore) (lp dir : String) (content : List Nat)
    (hfile : storeRead localFs lp = some content)
    (hcache : lookupAssoc st.uploaded_reference_files lp = none)
    (hfail : ∀ fs1, backendWrite (get_or_create_sandbox st env ce).2 env remoteFs
        (dir ++ "/" ++ pyBasename lp) (.bytes content) ≠ .ok fs1) :
    ∃ msg, upload_reference_file st env ce localFs remoteFs lp dir
      = .error (.runtimeError msg) := by
  unfold upload_reference_file
  simp only [hfile, hcache]
  rcases hga : get_or_create_sandbox st env ce with ⟨stA, sb⟩
  cases hw : backendWrite sb env remoteFs (dir ++ "/" ++ pyBasename lp)
      (.bytes content) with
  | ok fs1 => exact absurd (by rw [hga]; exact hw) (hfail fs1)
  | error e =>
      exact ⟨"Failed to upload file " ++ lp ++ " to " ++ (dir ++ "/" ++ pyBasename lp)
        ++ ": " ++ pyExcMsg e, rfl⟩

/-- C7 witness: a failing Docker exec write makes the upload raise
RuntimeError. -/
theorem c7_upload_write_failure_witness :
    ∃ msg, upload_reference_file dockerSessionState envDockerFail ceBeta9
        [("/data/ref.txt", [1, 2, 3])] [] "/data/ref.txt" "/home/user/reference_files"
      = .error (.runtimeError msg) :=
  c7_upload_write_failure dockerSessionState envDockerFail ceBeta9
    [("/data/ref.txt", [1, 2, 3])] [] "/data/ref.txt" "/home/user/reference_files"
    [1, 2, 3] rfl rfl (fun _fs1 h => Except.noConfusion h)

/-! ## C8: input validation -/

/-- C8 counterexample: the empty-code validation failure carries the message
"Code cannot be empty" (capital C), not "code cannot be empty" as the claim
quotes it. -/
theorem c8_counterexample :
    (execute_code "" "python" beta9SessionState envFailedRun).resp.error
        = some "Code cannot be empty" ∧
    (execute_code "" "python" beta9SessionState envFailedRun).resp.error
        ≠ some "code cannot be empty" := by
  constructor
  · rfl
  · decide

/-- C8 (amended): empty code yields a validation failure whose only key is
the error message "Code cannot be empty"; non-empty code with a language
whose lowercased, stripped form differs from "python" yields a validation
failure naming the language and listing the supported languages; in both
cases no session or backend is touched, no download is attempted, and the
session state is unchanged. -/
theorem c8_validation (code language : String) (st : SessionState) (env : ExecEnv) :
    (code = "" →
       (execute_code code language st env).resp
           = { Response.empty with error := some "Code cannot be empty" } ∧
       (execute_code code language st env).backendTouched = false ∧
       (execute_code code language st env).state = st ∧
       (execute_code code language st env).downloadsAttempted = []) ∧
    (code ≠ "" → pyStrip (pyLower language) ≠ "python" →
       (execute_code code language st env).resp
           = { Response.empty with
               error := some ("Language '" ++ pyStrip (pyLower language)
                 ++ "' not supported"),
               supported_languages := some ["python"] } ∧
       (execute_code code language st env).backendTouched = false ∧
       (execute_code code language st env).state = st ∧
       (execute_code code language st env).downloadsAttempted = []) := by
  constructor
  · intro hc
    subst hc
    simp [execute_code]
  · intro hc hl
    have hbne : (pyStrip (pyLower language) != "python") = true := by simpa using hl
    simp [execute_code, hc, hbne]

/-- C8 witness: concrete empty-code and wrong-language calls. -/
theorem c8_validation_witness :
    (execute_code "" "python" beta9SessionState envFailedRun).resp
        = { Response.empty with error := some "Code cannot be empty" } ∧
    (execute_code "print(1)" "Rust" beta9SessionState envFailedRun).resp
        = { Response.empty with
            error := some "Language 'rust' not supported",
            supported_languages := some ["python"] } := by
  constructor
  · exact ((c8_validation "" "python" beta9SessionState envFailedRun).1 rfl).1
  · exact (((c8_validation "print(1)" "Rust" beta9SessionState envFailedRun).2
      (by decide) (by decide)).1).trans (by decide)

/-! ## C9: liveness probe and recreation -/

/-- The probe outcome does not depend on the kill oracle. -/
theorem backendList_kill_irrel (b : Backend) (env : BackendEnv) (k : Bool) :
    backendList b { env with e2bKillOk := k } = backendList b env := by
  cases b <;> rfl

/-- C9: with an existing sandbox, probe success returns the session
unchanged (same backend, identifier, upload cache); on probe failure the
dead backend's kill outcome is discarded (termination errors swallowed —
the result is the same whatever the kill oracle says), the upload cache is
cleared, and a new backend is created by the creation policy on the cleared
state. -/
theorem c9_health_check (st : SessionState) (env : BackendEnv) (ce : CreateEnv)
    (b : Backend) (h : st.sandbox = some b) :
    (backendList b env = .ok () →
       get_or_create_sandbox st env ce = (st, b)) ∧
    (∀ e, backendList b env = .error e →
       get_or_create_sandbox st env ce
           = createSandbox ce { st with sandbox := none, sandbox_id := none,
                                        uploaded_reference_files := [] } ∧
       ∀ k1 k2 : Bool,
         get_or_create_sandbox st { env with e2bKillOk := k1 } ce
           = get_or_create_sandbox st { env with e2bKillOk := k2 } ce) := by
  refine ⟨fun hp => ?_, fun e hp => ⟨?_, fun k1 k2 => ?_⟩⟩
  · unfold get_or_create_sandbox
    simp only [h, hp]
  · unfold get_or_create_sandbox
    simp only [h, hp]
  · unfold get_or_create_sandbox
    simp only [h, backendList_kill_irrel, hp]

/-- An environment whose E2B list probe fails. -/
def envListFail : BackendEnv :=
  { beta9CpOk := true, dockerExecOk := true, e2bOk := true,
    e2bListOk := false, e2bKillOk := true }

/-- A session holding a dead E2B sandbox with a populated upload cache. -/
def e2bDeadState : SessionState :=
  { sandbox := some (.e2bSandbox (some "sb-1")), sandbox_id := some "sb-1",
    uploaded_reference_files := [("/data/a", "/home/user/reference_files/a")],
    use_local_fallback := false }

/-- C9 witness: a dead E2B sandbox is replaced per policy with the cache
cleared. -/
theorem c9_health_check_witness :
    get_or_create_sandbox e2bDeadState envListFail ceBeta9
      = createSandbox ceBeta9 { e2bDeadState with sandbox := none, sandbox_id := none,
                                                  uploaded_reference_files := [] } :=
  ((c9_health_check e2bDeadState envListFail ceBeta9 (.e2bSandbox (some "sb-1")) rfl).2
    (.otherExc "sandbox dead") rfl).1

/-! ## C10: data_path gating of artifact downloads -/

/-- The global state `execute_code` effectively consults (a raised lookup is
caught and replaced by the empty dictionary). -/
def effectiveGlobalState (env : ExecEnv) : GlobalState :=
  match env.globalState with
  | .ok g => g
  | .error _ => { data_path := none, current_date := none }

/-- Truthiness of the data_path names exactly the present-and-non-empty
values. -/
theorem dataPathTruthy_iff (g : GlobalState) :
    dataPathTruthy g = true ↔ ∃ s, g.data_path = some s ∧ s ≠ "" := by
  cases h : g.data_path <;> simp [dataPathTruthy, h]

/-- C10: downloads are attempted only when the global-state lookup yields a
present, non-empty data_path; when it is absent or empty, no download is
attempted, the response carries no error key, and the downloaded_artifacts
key is omitted — even for a successful run with markers in stdout. -/
theorem c10_download_gated (code language : String) (st : SessionState) (env : ExecEnv)
    (r : ExecutionResult) (hc : code ≠ "")
    (hl : pyStrip (pyLower language) = "python") (hr : env.runResult = .ok r)
    (hsucc : r.error = none) :
    ((execute_code code language st env).downloadsAttempted ≠ [] →
       ∃ s, (effectiveGlobalState env).data_path = some s ∧ s ≠ "") ∧
    ((effectiveGlobalState env).data_path = none ∨
        (effectiveGlobalState env).data_path = some "" →
       (execute_code code language st env).downloadsAttempted = [] ∧
       (execute_code code language st env).resp.downloaded_artifacts = none ∧
       (execute_code code language st env).resp.error = none) := by
  by_cases ht : dataPathTruthy (effectiveGlobalState env) = true
  · refine ⟨fun _ => (dataPathTruthy_iff _).mp ht, fun hd => ?_⟩
    exfalso
    rcases hd with hd | hd <;> simp [dataPathTruthy, hd] at ht
  · have ht' : dataPathTruthy (effectiveGlobalState env) = false := by
      simpa using ht
    have hmain : (execute_code code language st env).downloadsAttempted = [] ∧
        (execute_code code language st env).resp.downloaded_artifacts = none ∧
        (execute_code code language st env).resp.error = none := by
      unfold execute_code
      unfold effectiveGlobalState at ht'
      cases hg : env.globalState with
      | ok g =>
          rw [hg] at ht'
          simp [hc, hl, hr, hsucc, hg, ht']
      | error u =>
          rw [hg] at ht'
          simp [hc, hl, hr, hsucc, hg, ht']
    exact ⟨fun hne => absurd hmain.1 hne, fun _ => hmain⟩

/-- A successful run whose stdout announces an artifact. -/
def okRun : ExecutionResult :=
  { logs := { stdout := .str "ARTIFACT_PATH:/tmp/out.png\n", stderr := "" },
    error := none }

/-- An execution environment whose global state lacks a data_path. -/
def envNoDataPath : ExecEnv :=
  { globalState := .ok { data_path := none, current_date := some "2026-10-12" },
    benv := oracleEnvOk, cenv := ceBeta9, runResult := .ok okRun,
    remoteFs := [("/tmp/out.png", [9, 9])], localFs := [] }

/-- C10 witness: a successful marker-bearing run with no data_path downloads
nothing, surfaces no error and omits the downloaded_artifacts key. -/
theorem c10_download_gated_witness :
    (execute_code "print(1)" "python" beta9SessionState envNoDataPath).downloadsAttempted
        = [] ∧
    (execute_code "print(1)" "python" beta9SessionState envNoDataPath).resp.downloaded_artifacts
        = none ∧
    (execute_code "print(1)" "python" beta9SessionState envNoDataPath).resp.error = none :=
  (c10_download_gated "print(1)" "python" beta9SessionState envNoDataPath okRun
    (by decide) (by decide) rfl rfl).2 (Or.inl rfl)

end ClawWork
